import Mathlib

/-!
Shallow embedding of the recording subsystem of the webRTC-SFU repository
(src/src/recording/mixed-recording-manager.js, per-participant-recorder.js,
recording-manager.js, ffmpeg.js, and the sdp/utils modules), together with
theorems settling the specification claims about it.

JavaScript numbers that hold payload types, ports, clock rates, counts and
millisecond durations are modelled as `Nat` (they are small non-negative
integers in the source).  JavaScript string templates are modelled with
`String.append` / `toString`.  Fields that may be `undefined` in JavaScript
are modelled as `Option`.
-/

/-- Semantics of the JavaScript expression `o || d` on an optional number:
`undefined` and `0` are falsy and yield the default. -/
def jsOrNat (o : Option Nat) (d : Nat) : Nat :=
  match o with
  | none => d
  | some n => if n = 0 then d else n

/-- One entry of `rtpParameters.codecs` (mediasoup RTP codec object).
`parameters` is `none` when the JavaScript field is `undefined`, and
`some ps` (possibly empty) when the object is present. -/
structure RtpCodec where
  mimeType : String
  payloadType : Nat
  clockRate : Nat
  channels : Option Nat
  parameters : Option (List (String × String))
deriving Repr, DecidableEq

/-- Mediasoup RTP parameters: the codec list (the only part the recording
code reads). -/
structure RtpParameters where
  codecs : List RtpCodec
deriving Repr, DecidableEq

/-- An SFU producer as seen by the recorders: identifier, kind
(`"audio"` or `"video"`), and its negotiated RTP parameters. -/
structure Producer where
  id : Nat
  kind : String
  rtpParameters : RtpParameters
deriving Repr, DecidableEq

/-- Character-list test: does `pat` occur as a prefix of `s`? -/
def charsHavePrefix : List Char → List Char → Bool
  | [], _ => true
  | _ :: _, [] => false
  | p :: ps, c :: cs => p == c && charsHavePrefix ps cs

/-- Character-list substring search. -/
def charsIncludes : List Char → List Char → Bool
  | [], pat => pat.isEmpty
  | s@(_ :: rest), pat => charsHavePrefix pat s || charsIncludes rest pat

/-- Substring test, modelling JavaScript `s.includes(pat)`. -/
def strIncludes (s pat : String) : Bool :=
  charsIncludes s.data pat.data

/-- Character-list replacement of the first occurrence of `pat` by `sub`
(`pat` is left in place when empty, which matches JavaScript's
`s.replace('', '')` for the empty replacement used here). -/
def replaceFirstChars (pat sub : List Char) : List Char → List Char
  | [] => []
  | s@(c :: rest) =>
    if charsHavePrefix pat s then
      if pat.isEmpty then s else sub ++ s.drop pat.length
    else c :: replaceFirstChars pat sub rest

/-- Replacement of the first occurrence, modelling JavaScript
`s.replace(pat, sub)` for a string pattern. -/
def replaceFirst (s pat sub : String) : String :=
  ⟨replaceFirstChars pat.data sub.data s.data⟩

/-- Character-list split on a single separator character, modelling
JavaScript `s.split('/')` (the only separator the recorders use). -/
def splitOnChar (sep : Char) : List Char → List (List Char)
  | [] => [[]]
  | c :: rest =>
    let r := splitOnChar sep rest
    if c == sep then [] :: r
    else
      match r with
      | [] => [[c]]
      | h :: t => (c :: h) :: t

/-- Lower-casing, modelling JavaScript `s.toLowerCase()` for the ASCII
MIME types in play. -/
def strToLower (s : String) : String :=
  ⟨s.data.map Char.toLower⟩

/-- Extracted codec information, as assembled by
`_codecFromRtpParameters` (mixed-recording-manager.js) and `_codecInfo`
(per-participant-recorder.js): payload type, codec name, clock rate,
channels (audio only) and the `fmtp` parameter string. -/
structure CodecInfo where
  payloadType : Nat
  codecName : String
  clockRate : Nat
  channels : Option Nat
  fmtp : String
deriving Repr, DecidableEq

/-- The `fmtp` string built from a codec's `parameters` object:
`k=v` pairs joined with `;`, empty when the object is absent or empty
(`c.parameters && Object.keys(c.parameters).length ? ... : ''`). -/
def fmtpOfParameters (ps : Option (List (String × String))) : String :=
  match ps with
  | none => ""
  | some l =>
    if l.isEmpty then ""
    else String.intercalate ";" (l.map (fun kv => kv.1 ++ "=" ++ kv.2))

/-- Embedding of `_codecFromRtpParameters(kind, rtpParameters)`
(mixed-recording-manager.js lines 61-79) and of the identical
`_codecInfo(kind, rtpParameters)` (per-participant-recorder.js lines
54-68): pick the first codec whose lowercased MIME type contains `kind`;
return `none` when there is no such codec (JavaScript `null`). -/
def codecFromRtpParameters (kind : String) (rtp : RtpParameters) : Option CodecInfo :=
  match rtp.codecs.find? (fun c => strIncludes (strToLower c.mimeType) kind) with
  | none => none
  | some c =>
    some { payloadType := c.payloadType
           codecName := ((splitOnChar '/' c.mimeType.data).map String.mk).getD 1 ""
           clockRate := c.clockRate
           channels := if kind = "audio" then some (jsOrNat c.channels 2) else none
           fmtp := fmtpOfParameters c.parameters }

/-- Embedding of `getCodecInfoFromRtpParameters(kind, rtpParameters)`
(utils module, src/unnamed/part_003 lines 70-88): takes the FIRST codec of
the list regardless of its MIME type; codec name strips a leading
`kind ++ "/"`; `none` models the thrown `No codecs found` error. The
`parameters` object is propagated untouched (the caller tests its mere
presence). -/
def getCodecInfoFromRtpParameters (kind : String) (rtp : RtpParameters) :
    Option (CodecInfo × Option (List (String × String))) :=
  match rtp.codecs with
  | [] => none
  | c :: _ =>
    some ({ payloadType := c.payloadType
            codecName := replaceFirst c.mimeType (kind ++ "/") ""
            clockRate := c.clockRate
            channels := if kind = "audio" then c.channels else none
            fmtp := "" },
          c.parameters)

/-- The fixed SDP preamble shared by `_buildPerInputSdp` and `_sdpFor`. -/
def sdpPreamble : List String :=
  ["v=0", "o=- 0 0 IN IP4 127.0.0.1", "s=FFmpegInput", "c=IN IP4 127.0.0.1", "t=0 0"]

/-- Embedding of `_buildPerInputSdp({kind, codecName, clockRate, channels,
payloadType, port, fmtp})` (mixed-recording-manager.js lines 39-59),
returning the list of SDP lines (the source joins them with newlines). -/
def buildPerInputSdp (kind codecName : String) (clockRate : Nat)
    (channels : Option Nat) (payloadType port : Nat) (fmtp : String) : List String :=
  sdpPreamble ++
    (if kind = "video" then
      ["m=video " ++ toString port ++ " RTP/AVP " ++ toString payloadType,
       "a=rtpmap:" ++ toString payloadType ++ " " ++ codecName ++ "/" ++ toString clockRate,
       "a=rtcp:" ++ toString (port + 1) ++ " IN IP4 127.0.0.1",
       "a=recvonly"] ++
      (if fmtp = "" then [] else ["a=fmtp:" ++ toString payloadType ++ " " ++ fmtp])
    else
      ["m=audio " ++ toString port ++ " RTP/AVP " ++ toString payloadType,
       "a=rtpmap:" ++ toString payloadType ++ " " ++ codecName ++ "/" ++ toString clockRate
         ++ "/" ++ toString (jsOrNat channels 2),
       "a=rtcp:" ++ toString (port + 1) ++ " IN IP4 127.0.0.1",
       "a=recvonly"] ++
      (if fmtp = "" then [] else ["a=fmtp:" ++ toString payloadType ++ " " ++ fmtp]))

/-- Embedding of `_sdpFor(kind, payloadType, codecName, clockRate, port,
channels, fmtp)` (per-participant-recorder.js lines 34-52).  Identical to
`_buildPerInputSdp` except that NO `a=rtcp:` line is emitted. -/
def sdpFor (kind : String) (payloadType : Nat) (codecName : String)
    (clockRate port : Nat) (channels : Option Nat) (fmtp : String) : List String :=
  sdpPreamble ++
    (if kind = "video" then
      ["m=video " ++ toString port ++ " RTP/AVP " ++ toString payloadType,
       "a=rtpmap:" ++ toString payloadType ++ " " ++ codecName ++ "/" ++ toString clockRate,
       "a=recvonly"] ++
      (if fmtp = "" then [] else ["a=fmtp:" ++ toString payloadType ++ " " ++ fmtp])
    else
      ["m=audio " ++ toString port ++ " RTP/AVP " ++ toString payloadType,
       "a=rtpmap:" ++ toString payloadType ++ " " ++ codecName ++ "/" ++ toString clockRate
         ++ "/" ++ toString (jsOrNat channels 2),
       "a=recvonly"] ++
      (if fmtp = "" then [] else ["a=fmtp:" ++ toString payloadType ++ " " ++ fmtp]))

/-- A line opens an SDP media section when its first two characters are
`m=`. -/
def isMediaLine (l : String) : Bool :=
  l.data.take 2 = ['m', '=']

/-- Embedding of `createSdpText(rtpParameters)` (sdp module,
src/unnamed/part_006): preamble `s=FFmpeg`, then an optional video section
from `videoCodec` (producer RTP parameters) and an optional audio section
from `audioCodec`.  The `fmtp` line is pushed whenever the first codec's
`parameters` object is PRESENT (JavaScript truthiness of an object), even
when it is empty.  The audio port is `remoteAudioRtpPort || remoteRtpPort + 2`. -/
def createSdpText (videoCodec audioCodec : Option RtpParameters)
    (remoteRtpPort : Nat) (remoteAudioRtpPort : Option Nat) : List String :=
  let base := ["v=0", "o=- 0 0 IN IP4 127.0.0.1", "s=FFmpeg", "c=IN IP4 127.0.0.1", "t=0 0"]
  let videoSection :=
    match videoCodec with
    | none => []
    | some rtp =>
      match getCodecInfoFromRtpParameters "video" rtp with
      | none => []
      | some (info, params) =>
        ["m=video " ++ toString remoteRtpPort ++ " RTP/AVP " ++ toString info.payloadType,
         "a=rtpmap:" ++ toString info.payloadType ++ " " ++ info.codecName ++ "/"
           ++ toString info.clockRate,
         "a=recvonly"] ++
        (match params with
         | none => []
         | some ps =>
           ["a=fmtp:" ++ toString info.payloadType ++ " " ++
             String.intercalate ";" (ps.map (fun kv => kv.1 ++ "=" ++ kv.2))])
  let audioSection :=
    match audioCodec with
    | none => []
    | some rtp =>
      match getCodecInfoFromRtpParameters "audio" rtp with
      | none => []
      | some (info, params) =>
        let audioPort := jsOrNat remoteAudioRtpPort (remoteRtpPort + 2)
        ["m=audio " ++ toString audioPort ++ " RTP/AVP " ++ toString info.payloadType,
         "a=rtpmap:" ++ toString info.payloadType ++ " " ++ info.codecName ++ "/"
           ++ toString info.clockRate ++ "/" ++ toString (jsOrNat info.channels 2),
         "a=recvonly"] ++
        (match params with
         | none => []
         | some ps =>
           ["a=fmtp:" ++ toString info.payloadType ++ " " ++
             String.intercalate ";" (ps.map (fun kv => kv.1 ++ "=" ++ kv.2))])
  base ++ videoSection ++ audioSection

/-- The first producer of the given kind in room enumeration order, whose
RTP parameters the legacy `startRecording` (recording-manager.js lines
69-83) captures into `videoCodec` / `audioCodec`. -/
def firstKindRtp (kind : String) (producers : List Producer) : Option RtpParameters :=
  (producers.find? (fun p => p.kind = kind)).map (fun p => p.rtpParameters)

/-- Embedding of the SDP synthesis path of the legacy
`startRecording` (recording-manager.js lines 43-148 combined with
ffmpeg.js and createSdpText): the SDP text handed to the muxer is built
from the PRODUCERS' RTP parameters captured at lines 74-83; `none` models
the `No video or audio producers found` error. -/
def startRecordingSdp (producers : List Producer) (basePort : Nat) : Option (List String) :=
  let videoCodec := firstKindRtp "video" producers
  let audioCodec := firstKindRtp "audio" producers
  match videoCodec, audioCodec with
  | none, none => none
  | _, _ =>
    some (createSdpText videoCodec audioCodec basePort
      (match audioCodec with | none => none | some _ => some (basePort + 2)))

/-- Grid layout record returned by `_computeLayout`. -/
structure Layout where
  rows : Nat
  cols : Nat
  cellW : Nat
  cellH : Nat
deriving Repr, DecidableEq

/-- Embedding of `_computeLayout(numVideos, width, height)`
(mixed-recording-manager.js lines 81-86).  `Math.floor(width / 2)` on the
non-negative integers in play is `Nat` division. -/
def computeLayout (numVideos width height : Nat) : Layout :=
  if numVideos ≤ 1 then ⟨1, 1, width, height⟩
  else if numVideos = 2 then ⟨1, 2, width / 2, height⟩
  else if numVideos = 3 then ⟨2, 2, width / 2, height / 2⟩
  else ⟨2, 2, width / 2, height / 2⟩

/-- The per-input normalization chain pushed for video input `i`
(mixed-recording-manager.js lines 94-100). -/
def videoChain (i cellW cellH : Nat) : String :=
  "[" ++ toString i ++ ":v]scale=" ++ toString cellW ++ ":" ++ toString cellH ++
    ":force_original_aspect_ratio=decrease:eval=frame,pad=" ++ toString cellW ++ ":" ++
    toString cellH ++ ":(ow-iw)/2:(oh-ih)/2:color=black,fps=25,setsar=1,format=yuv420p[v" ++
    toString i ++ "]"

/-- The `layout` coordinate strings of the grid stack
(mixed-recording-manager.js lines 104-110): double loop over rows and
columns in row-major order, pushing `c*cellW ++ "_" ++ r*cellH` only while
`r*cols + c < videoCount`. -/
def layoutParts (rows cols cellW cellH videoCount : Nat) : List String :=
  (List.range rows).flatMap (fun r =>
    (List.range cols).filterMap (fun c =>
      if r * cols + c < videoCount then
        some (toString (c * cellW) ++ "_" ++ toString (r * cellH))
      else none))

/-- The `xstack` line (mixed-recording-manager.js lines 111-113). -/
def xstackLine (videoCount : Nat) (parts : List String) : String :=
  String.intercalate "" ((List.range videoCount).map (fun i => "[v" ++ toString i ++ "]")) ++
    "xstack=inputs=" ++ toString videoCount ++ ":layout=" ++
    String.intercalate "|" parts ++ ":fill=black:shortest=0[vtmp]"

/-- Embedding of `_buildFilterComplex(videoCount, audioCount, targetW,
targetH)` (mixed-recording-manager.js lines 88-134), as the list of filter
parts; the source joins them with `;`.  Note that the video chain — the
`xstack` line and the `[vtmp]setpts...[vout]` line — is emitted
UNCONDITIONALLY, even when `videoCount = 0`. -/
def buildFilterParts (videoCount audioCount targetW targetH : Nat) : List String :=
  let L := computeLayout videoCount targetW targetH
  ((List.range videoCount).map (fun i => videoChain i L.cellW L.cellH)) ++
    [xstackLine videoCount (layoutParts L.rows L.cols L.cellW L.cellH videoCount),
     "[vtmp]setpts=PTS-STARTPTS[vout]"] ++
    (if audioCount > 0 then
      ((List.range audioCount).map (fun j =>
        "[" ++ toString (videoCount + j) ++
          ":a]aresample=async=1:min_hard_comp=0.100:first_pts=0[a" ++ toString j ++ "]")) ++
      (if audioCount = 1 then ["[a0]asetpts=PTS-STARTPTS[aout]"]
       else
        [String.intercalate "" ((List.range audioCount).map (fun j => "[a" ++ toString j ++ "]")) ++
           "amix=inputs=" ++ toString audioCount ++
           ":normalize=0:duration=longest:dropout_transition=2[amix]",
         "[amix]asetpts=PTS-STARTPTS[aout]"])
    else [])

/-- The joined filter-complex string handed to the muxer. -/
def buildFilterComplex (videoCount audioCount targetW targetH : Nat) : String :=
  String.intercalate ";" (buildFilterParts videoCount audioCount targetW targetH)

/-- The stream-mapping portion of the muxer argument vector
(mixed-recording-manager.js lines 289-290): `-map [vout]` is pushed
UNCONDITIONALLY; `-map [aout]` only when there are audio inputs. -/
def mixedMapArgs (audioCount : Nat) : List String :=
  ["-map", "[vout]"] ++ (if audioCount > 0 then ["-map", "[aout]"] else [])

/-- Embedding of the retry loop of `_getFreePort`
(mixed-recording-manager.js lines 14-37 with `base = 15000`,
per-participant-recorder.js lines 13-32 with `base = 20000`): attempt `i`
probes the single candidate port `base + draws i` (where `draws i` models
`Math.floor(Math.random() * 40000)`) against the bind oracle `free`; the
FIRST free candidate is returned.  `free` is the state of the UDP ports at
the moment of the check.  NO probe of `candidate + 1` is made.  `none`
models the thrown `No free UDP port available` error after 200 attempts. -/
def getFreePortLoop (free : Nat → Bool) (base : Nat) (draws : Nat → Nat) :
    Nat → Nat → Option Nat
  | _, 0 => none
  | i, fuel + 1 =>
    if free (base + draws i) then some (base + draws i)
    else getFreePortLoop free base draws (i + 1) fuel

/-- The allocator entry point: the loop runs attempts `0 .. 199`. -/
def getFreePort (free : Nat → Bool) (base : Nat) (draws : Nat → Nat) : Option Nat :=
  getFreePortLoop free base draws 0 200

/-- The minimum-runtime hold of `stopMixedRecording`
(mixed-recording-manager.js lines 376-379): `minRunMs = 20000`; when the
elapsed time since `startedAt` is below it, the stop waits for the
difference before signalling the muxer. -/
def mixedStopHoldMs (elapsed : Nat) : Nat :=
  if elapsed < 20000 then 20000 - elapsed else 0

/-- The same hold in the variant manager (src/unnamed/part_005 lines
615-621): `minRunMs = 5000`, applied to the elapsed time measured from
`ffmpegStartedAt || startedAt`. -/
def mixedStopHoldMsVariant (actualElapsed : Nat) : Nat :=
  if actualElapsed < 5000 then 5000 - actualElapsed else 0

/-- Modelled from the spec and per-participant-recorder.js lines 153-178:
the per-participant `stop` contains no minimum-runtime wait at all, so its
hold is zero for every elapsed time. -/
def perStopHoldMs (_elapsed : Nat) : Nat := 0

/-- Events of the orchestration traces (consumer binding, muxer
supervision, shutdown).  `id`s are producer/consumer/transport indices;
`m` is the index of a muxer process (the mixed recorder has the single
muxer `0`; the per-participant recorder runs one muxer per item). -/
inductive Ev
  | createTransport (id : Nat)
  | createConsumer (id : Nat) (paused : Bool)
  | connectTransport (id : Nat)
  | writeSdp (id : Nat)
  | spawnMuxer (m : Nat)
  | resumeConsumer (id : Nat)
  | requestKeyFrame (id : Nat)
  | holdWait (ms : Nat)
  | waitClose (ms : Nat)
  | signalQuit
  | killMuxer (m : Nat)
  | closeConsumer (id : Nat)
  | closeTransport (id : Nat)
  | clearTimers
  | writeMetadata
  | deleteEntry
  | probeDuration
deriving Repr, DecidableEq

/-- Trace of `startMixedRecording` (mixed-recording-manager.js lines
163-370) restricted to the consumer-lifecycle events, for the inputs
`(id, kind)` that are kept: per input the transport is created, the
consumer is created with `paused: true` (lines 197 and 226), the
transport is connected and the SDP written; then the single muxer is
spawned with its full argument vector (line 327); only then is each
consumer resumed (lines 334-345), video consumers also receiving a
keyframe request. -/
def mixedStartTrace (inputs : List (Nat × String)) : List Ev :=
  (inputs.flatMap (fun i =>
    [Ev.createTransport i.1, Ev.createConsumer i.1 true,
     Ev.connectTransport i.1, Ev.writeSdp i.1])) ++
  [Ev.spawnMuxer 0] ++
  (inputs.flatMap (fun i =>
    Ev.resumeConsumer i.1 :: (if i.2 = "video" then [Ev.requestKeyFrame i.1] else [])))

/-- Trace of the per-producer loop of the per-participant `start`
(per-participant-recorder.js lines 93-135): for each item the consumer is
created with `paused: true` (line 97), that item's own muxer is spawned
(line 127), and only then is the consumer resumed (line 132). -/
def perStartTrace (items : List (Nat × String)) : List Ev :=
  items.flatMap (fun i =>
    [Ev.createTransport i.1, Ev.createConsumer i.1 true, Ev.connectTransport i.1,
     Ev.writeSdp i.1, Ev.spawnMuxer i.1, Ev.resumeConsumer i.1] ++
    (if i.2 = "video" then [Ev.requestKeyFrame i.1] else []))

/-- Trace of the legacy `startRecording` variant (recording-manager.js
lines 305-416 with `connectProducersToRecording`, lines 467-531): the
recording transport is created, the muxer is spawned via `new FFmpeg`
(line 389), and then for each producer a consumer is created with
`paused: false` (line 517) and resumed. -/
def legacyConnectTrace (prods : List Nat) : List Ev :=
  [Ev.createTransport 0, Ev.spawnMuxer 0] ++
  prods.flatMap (fun i => [Ev.createConsumer i false, Ev.resumeConsumer i])

/-- Every consumer-creation event in the trace carries `paused = true`. -/
def pausedAtCreation (l : List Ev) : Bool :=
  l.all (fun e => match e with | .createConsumer _ b => b | _ => true)

/-- Scan checker: every `resumeConsumer` event occurs after some muxer
spawn (single-muxer recorders). -/
def resumesAfterSpawn (spawned : Bool) : List Ev → Bool
  | [] => true
  | .spawnMuxer _ :: xs => resumesAfterSpawn true xs
  | .resumeConsumer _ :: xs => spawned && resumesAfterSpawn spawned xs
  | _ :: xs => resumesAfterSpawn spawned xs

/-- Scan checker: every consumer is resumed only after the muxer with the
same index was spawned (per-participant recorder: item `i` owns muxer `i`). -/
def resumesAfterOwnSpawn (spawned : List Nat) : List Ev → Bool
  | [] => true
  | .spawnMuxer m :: xs => resumesAfterOwnSpawn (m :: spawned) xs
  | .resumeConsumer i :: xs => spawned.contains i && resumesAfterOwnSpawn spawned xs
  | _ :: xs => resumesAfterOwnSpawn spawned xs

/-- Scan checker: every close of consumer or transport `i` occurs after
the kill signal to muxer `i`. -/
def killsPrecedeCloses (killed : List Nat) : List Ev → Bool
  | [] => true
  | .killMuxer m :: xs => killsPrecedeCloses (m :: killed) xs
  | .closeConsumer i :: xs => killed.contains i && killsPrecedeCloses killed xs
  | .closeTransport i :: xs => killed.contains i && killsPrecedeCloses killed xs
  | _ :: xs => killsPrecedeCloses killed xs

/-- Resource-release events. -/
def isCloseEv : Ev → Bool
  | .closeConsumer _ => true
  | .closeTransport _ => true
  | _ => false

/-- The close loops of `stopMixedRecording` (lines 393-403 and 412-421):
all consumers closed, then all transports. -/
def closesAll (cids tids : List Nat) : List Ev :=
  cids.map Ev.closeConsumer ++ tids.map Ev.closeTransport

/-- Trace of `stopMixedRecording` (mixed-recording-manager.js lines
372-459).  `elapsed` is the wall-clock time since `startedAt`; `e1` is
true when the muxer had already exited within the initial 300 ms wait
(line 381); `e2` is true when it exited within the 30 s grace wait after
the `q` signal (line 389).  The early close block (lines 393-405) runs
only when the muxer is still alive after the grace window; the keyframe
timers are then cleared, all consumers and transports are closed
(unconditionally), the Registry entry is deleted (line 423), and the
output file is probed. -/
def mixedStopPhase (elapsed : Nat) (e1 : Bool) : List Ev :=
  (if elapsed < 20000 then [Ev.holdWait (20000 - elapsed)] else []) ++
  [Ev.waitClose 300] ++
  (if e1 then [] else [Ev.signalQuit, Ev.waitClose 30000])

def mixedStopTrace (cids tids : List Nat) (elapsed : Nat) (e1 e2 : Bool) : List Ev :=
  mixedStopPhase elapsed e1 ++
  (if e1 || e2 then [] else closesAll cids tids ++ [Ev.waitClose 5000]) ++
  [Ev.clearTimers] ++ closesAll cids tids ++ [Ev.deleteEntry, Ev.probeDuration]

/-- Trace of the per-participant `stop` (per-participant-recorder.js lines
153-178): item by item, the muxer receives SIGINT and then that item's
consumer and transport are closed; afterwards `metadata.json` is written
and the Registry entry deleted. -/
def perStopTrace (ids : List Nat) : List Ev :=
  (ids.flatMap (fun i => [Ev.killMuxer i, Ev.closeConsumer i, Ev.closeTransport i])) ++
  [Ev.writeMetadata, Ev.deleteEntry]

lemma isMediaLine_mvideo (s : String) : isMediaLine ("m=video " ++ s) = true := rfl

lemma isMediaLine_maudio (s : String) : isMediaLine ("m=audio " ++ s) = true := rfl

lemma isMediaLine_rtpmap (s : String) : isMediaLine ("a=rtpmap:" ++ s) = false := rfl

lemma isMediaLine_rtcp (s : String) : isMediaLine ("a=rtcp:" ++ s) = false := rfl

lemma isMediaLine_fmtp (s : String) : isMediaLine ("a=fmtp:" ++ s) = false := rfl

/-- C4: For every video-input count V in {1,2,3,4} and every target frame
size W×H, `_computeLayout` yields 1×1 with cell W×H for V=1, 1×2 with cell
(W/2)×H for V=2 and 2×2 with cell (W/2)×(H/2) for V=3 and V=4. -/
theorem grid_layout_table : ∀ w h : Nat,
    computeLayout 1 w h = ⟨1, 1, w, h⟩ ∧
    computeLayout 2 w h = ⟨1, 2, w / 2, h⟩ ∧
    computeLayout 3 w h = ⟨2, 2, w / 2, h / 2⟩ ∧
    computeLayout 4 w h = ⟨2, 2, w / 2, h / 2⟩ :=
  fun _ _ => ⟨rfl, rfl, rfl, rfl⟩

/-- C8 (amended): the stop of a mixed recording is held until
`startedAt + 20000 ms` when issued earlier (the floor in
mixed-recording-manager.js is 20 s, not 5 s; the variant manager in
src/unnamed/part_005 uses a 5 s floor on the muxer-started clock), and the
per-participant stop is never held; in particular a stop 1 s after start
takes effect at 20 s in the primary mixed manager. -/
theorem stop_hold_floor_constants : ∀ e : Nat,
    e + mixedStopHoldMs e = max e 20000 ∧
    e + mixedStopHoldMsVariant e = max e 5000 ∧
    perStopHoldMs e = 0 ∧
    1000 + mixedStopHoldMs 1000 = 20000 := by
  intro e
  refine ⟨?_, ?_, rfl, rfl⟩
  · unfold mixedStopHoldMs; split <;> omega
  · unfold mixedStopHoldMsVariant; split <;> omega

/-- C8 counterexample: the claim's 5-second floor is refuted by the code:
a stop issued 6 s after start (past the claimed 5 s floor) is still held
for 14 more seconds, and a stop issued 1 s after start takes effect at
20 s, not 5 s. -/
theorem stop_hold_floor_not_five_seconds_cex :
    mixedStopHoldMs 6000 = 14000 ∧ mixedStopHoldMs 6000 ≠ 0 ∧
    1000 + mixedStopHoldMs 1000 = 20000 ∧ (20000 : Nat) ≠ 5000 := by
  decide

/-- C9: with zero video inputs and one audio input the mixed recorder
still emits the whole video filter chain (`xstack=inputs=0` stacking
nothing into `[vout]`) and still maps `[vout]` in the muxer argument
vector, in addition to `[aout]` — contradicting the audio-only recording
scenario, which requires no video track. -/
theorem audio_only_mixed_start_still_maps_video_chain :
    buildFilterComplex 0 1 1280 720 =
      "xstack=inputs=0:layout=:fill=black:shortest=0[vtmp];[vtmp]setpts=PTS-STARTPTS[vout];[0:a]aresample=async=1:min_hard_comp=0.100:first_pts=0[a0];[a0]asetpts=PTS-STARTPTS[aout]" ∧
    mixedMapArgs 1 = ["-map", "[vout]", "-map", "[aout]"] := by
  exact ⟨rfl, rfl⟩

/-- The grid-layout coordinate list exactly as `_buildFilterComplex`
computes it from `_computeLayout` for `V` video inputs. -/
def gridLayoutList (V w h : Nat) : List String :=
  let L := computeLayout V w h
  layoutParts L.rows L.cols L.cellW L.cellH V

/-- The claim's formula for the top-left corner of input `i`:
column `i mod cols`, row `i div cols`, corner `(c*Wc, r*Hc)`. -/
def cellPos (i cols cellW cellH : Nat) : String :=
  toString ((i % cols) * cellW) ++ "_" ++ toString ((i / cols) * cellH)

/-- The claim's version of the whole coordinate list: inputs `0..V-1`
placed in row-major order by the div/mod formula. -/
def specGridList (V w h : Nat) : List String :=
  let L := computeLayout V w h
  (List.range V).map (fun i => cellPos i L.cols L.cellW L.cellH)

lemma append_fill_black (P : String) :
    P ++ ":fill=black:shortest=0[vtmp]" = (P ++ ":") ++ "fill=black" ++ ":shortest=0[vtmp]" := by
  rw [String.append_assoc, String.append_assoc]
  rfl

/-- C5: for V in {1,2,3,4} the grid-stack layout string places input i
(0-based) at top-left corner (c*Wc, r*Hc) with r = i div cols and
c = i mod cols, filling cells in row-major order; for V=3 only three
coordinates are emitted (the fourth cell stays empty) and the stack
operator carries `fill=black`. -/
theorem grid_layout_positions_row_major : ∀ w h : Nat,
    gridLayoutList 1 w h = specGridList 1 w h ∧
    gridLayoutList 2 w h = specGridList 2 w h ∧
    gridLayoutList 3 w h = specGridList 3 w h ∧
    gridLayoutList 4 w h = specGridList 4 w h ∧
    (gridLayoutList 3 w h).length = 3 ∧
    (∃ u v, xstackLine 3 (gridLayoutList 3 w h) = u ++ "fill=black" ++ v) := by
  intro w h
  refine ⟨?_, ?_, ?_, ?_, ?_, ?_⟩
  · simp [gridLayoutList, specGridList, computeLayout, layoutParts, cellPos, List.range_succ]
  · simp [gridLayoutList, specGridList, computeLayout, layoutParts, cellPos, List.range_succ]
  · simp [gridLayoutList, specGridList, computeLayout, layoutParts, cellPos, List.range_succ]
  · simp [gridLayoutList, specGridList, computeLayout, layoutParts, cellPos, List.range_succ]
  · simp [gridLayoutList, computeLayout, layoutParts, List.range_succ]
  exact ⟨(String.intercalate "" ((List.range 3).map (fun i => "[v" ++ toString i ++ "]")) ++
      "xstack=inputs=" ++ toString 3 ++ ":layout=" ++
      String.intercalate "|" (gridLayoutList 3 w h)) ++ ":",
    ":shortest=0[vtmp]",
    append_fill_black _⟩

lemma getFreePortLoop_some (free : Nat → Bool) (base : Nat) (draws : Nat → Nat) :
    ∀ fuel i P, getFreePortLoop free base draws i fuel = some P →
      free P = true ∧ ∃ j, i ≤ j ∧ j < i + fuel ∧ P = base + draws j := by
  intro fuel
  induction fuel with
  | zero => intro i P h; simp [getFreePortLoop] at h
  | succ n ih =>
    intro i P h
    unfold getFreePortLoop at h
    by_cases hf : free (base + draws i) = true
    · rw [if_pos hf] at h
      obtain rfl : base + draws i = P := by injection h
      exact ⟨hf, i, Nat.le_refl i, by omega, rfl⟩
    · rw [if_neg hf] at h
      obtain ⟨hfree, j, hij, hlt, rfl⟩ := ih (i + 1) P h
      exact ⟨hfree, j, by omega, by omega, rfl⟩

lemma getFreePortLoop_none_iff (free : Nat → Bool) (base : Nat) (draws : Nat → Nat) :
    ∀ fuel i, getFreePortLoop free base draws i fuel = none ↔
      ∀ j, i ≤ j → j < i + fuel → free (base + draws j) = false := by
  intro fuel
  induction fuel with
  | zero =>
    intro i
    constructor
    · intro _ j h1 h2; exact absurd h2 (by omega)
    · intro _; rfl
  | succ n ih =>
    intro i
    unfold getFreePortLoop
    by_cases hf : free (base + draws i) = true
    · rw [if_pos hf]
      constructor
      · intro h; exact absurd h (by simp)
      · intro h
        have hfalse := h i (Nat.le_refl i) (by omega)
        rw [hf] at hfalse
        exact absurd hfalse (by simp)
    · rw [if_neg hf]
      rw [ih (i + 1)]
      constructor
      · intro h j h1 h2
        rcases Nat.eq_or_lt_of_le h1 with rfl | hlt
        · exact Bool.of_not_eq_true hf
        · exact h j hlt (by omega)
      · intro h j h1 h2
        exact h j (by omega) (by omega)

/-- C7 (amended): the allocator probes ONLY the single candidate port
`base + draw` on 127.0.0.1 per attempt (the neighbouring port P+1 is
never checked); it retries up to 200 times (at least the claimed 50) with
a fresh draw per attempt, returns the first candidate whose probe
succeeds, and throws the resource-exhaustion error exactly when none of
the 200 candidates probed free. -/
theorem port_allocator_single_port_retry :
    ∀ (free : Nat → Bool) (base : Nat) (draws : Nat → Nat),
      (∀ P, getFreePort free base draws = some P →
        free P = true ∧ ∃ j, j < 200 ∧ P = base + draws j) ∧
      (getFreePort free base draws = none ↔
        ∀ j, j < 200 → free (base + draws j) = false) ∧
      (50 : Nat) ≤ 200 := by
  intro free base draws
  refine ⟨?_, ?_, by omega⟩
  · intro P h
    obtain ⟨hfree, j, _, hlt, rfl⟩ := getFreePortLoop_some free base draws 200 0 P h
    exact ⟨hfree, j, by omega, rfl⟩
  · rw [show getFreePort free base draws = getFreePortLoop free base draws 0 200 from rfl,
      getFreePortLoop_none_iff free base draws 200 0]
    constructor
    · intro h j hj; exact h j (Nat.zero_le j) (by omega)
    · intro h j _ hj; exact h j (by omega)

/-- C7 witness: with every port free and all draws 0, the allocator
returns `base + 0 = 15000`, which is free, found within the bound. -/
theorem port_allocator_single_port_retry_witness :
    (fun _ : Nat => true) 15000 = true ∧
      ∃ j, j < 200 ∧ 15000 = 15000 + (fun _ : Nat => 0) j :=
  (port_allocator_single_port_retry (fun _ => true) 15000 (fun _ => 0)).1 15000 rfl

/-- C7 counterexample: the claim requires both P and P+1 to be free at
the time of the check, but the allocator accepts P = 15000 while
P+1 = 15001 is occupied, because it never probes P+1. -/
theorem port_allocator_ignores_next_port_cex :
    getFreePort (fun p => p != 15001) 15000 (fun _ => 0) = some 15000 ∧
    (fun p : Nat => p != 15001) (15000 + 1) = false :=
  ⟨rfl, rfl⟩

/-- A line declares the RTCP address when it starts with `a=rtcp:`. -/
def isRtcpLine (l : String) : Bool :=
  l.data.take 7 = ['a', '=', 'r', 't', 'c', 'p', ':']

/-- A line carries format parameters when it starts with `a=fmtp:`. -/
def isFmtpLine (l : String) : Bool :=
  l.data.take 7 = ['a', '=', 'f', 'm', 't', 'p', ':']

lemma isRtcpLine_mvideo (s : String) : isRtcpLine ("m=video " ++ s) = false := rfl

lemma isRtcpLine_maudio (s : String) : isRtcpLine ("m=audio " ++ s) = false := rfl

lemma isRtcpLine_rtpmap (s : String) : isRtcpLine ("a=rtpmap:" ++ s) = false := rfl

lemma isRtcpLine_fmtp (s : String) : isRtcpLine ("a=fmtp:" ++ s) = false := rfl

lemma buildPerInputSdp_video (codecName : String) (clockRate : Nat) (channels : Option Nat)
    (pt port : Nat) (fmtp : String) :
    buildPerInputSdp "video" codecName clockRate channels pt port fmtp =
      sdpPreamble ++
        ["m=video " ++ toString port ++ " RTP/AVP " ++ toString pt,
         "a=rtpmap:" ++ toString pt ++ " " ++ codecName ++ "/" ++ toString clockRate,
         "a=rtcp:" ++ toString (port + 1) ++ " IN IP4 127.0.0.1",
         "a=recvonly"] ++
        (if fmtp = "" then [] else ["a=fmtp:" ++ toString pt ++ " " ++ fmtp]) := rfl

lemma buildPerInputSdp_audio (codecName : String) (clockRate : Nat) (channels : Option Nat)
    (pt port : Nat) (fmtp : String) :
    buildPerInputSdp "audio" codecName clockRate channels pt port fmtp =
      sdpPreamble ++
        ["m=audio " ++ toString port ++ " RTP/AVP " ++ toString pt,
         "a=rtpmap:" ++ toString pt ++ " " ++ codecName ++ "/" ++ toString clockRate
           ++ "/" ++ toString (jsOrNat channels 2),
         "a=rtcp:" ++ toString (port + 1) ++ " IN IP4 127.0.0.1",
         "a=recvonly"] ++
        (if fmtp = "" then [] else ["a=fmtp:" ++ toString pt ++ " " ++ fmtp]) := rfl

lemma sdpFor_video (codecName : String) (clockRate : Nat) (channels : Option Nat)
    (pt port : Nat) (fmtp : String) :
    sdpFor "video" pt codecName clockRate port channels fmtp =
      sdpPreamble ++
        ["m=video " ++ toString port ++ " RTP/AVP " ++ toString pt,
         "a=rtpmap:" ++ toString pt ++ " " ++ codecName ++ "/" ++ toString clockRate,
         "a=recvonly"] ++
        (if fmtp = "" then [] else ["a=fmtp:" ++ toString pt ++ " " ++ fmtp]) := rfl

lemma sdpFor_audio (codecName : String) (clockRate : Nat) (channels : Option Nat)
    (pt port : Nat) (fmtp : String) :
    sdpFor "audio" pt codecName clockRate port channels fmtp =
      sdpPreamble ++
        ["m=audio " ++ toString port ++ " RTP/AVP " ++ toString pt,
         "a=rtpmap:" ++ toString pt ++ " " ++ codecName ++ "/" ++ toString clockRate
           ++ "/" ++ toString (jsOrNat channels 2),
         "a=recvonly"] ++
        (if fmtp = "" then [] else ["a=fmtp:" ++ toString pt ++ " " ++ fmtp]) := rfl

/-- C6 (amended): for every codec info and port, each synthesized
per-input SDP has exactly one media section of the claimed shape — the
`m=` line, the `a=rtpmap:` line (with `/<channels>` defaulting to 2 for
audio), `a=recvonly`, and an `a=fmtp:` line exactly when format
parameters are present.  The `a=rtcp:<port+1> IN IP4 127.0.0.1` line is
present in the MIXED recorder's `_buildPerInputSdp` only; the
per-participant `_sdpFor` emits no `a=rtcp:` line at all. -/
theorem per_input_sdp_shape :
    ∀ (codecName : String) (clockRate : Nat) (channels : Option Nat) (pt port : Nat)
      (fmtp : String),
      (buildPerInputSdp "video" codecName clockRate channels pt port fmtp).countP isMediaLine
          = 1 ∧
      (buildPerInputSdp "audio" codecName clockRate channels pt port fmtp).countP isMediaLine
          = 1 ∧
      ("m=video " ++ toString port ++ " RTP/AVP " ++ toString pt)
        ∈ buildPerInputSdp "video" codecName clockRate channels pt port fmtp ∧
      ("a=rtpmap:" ++ toString pt ++ " " ++ codecName ++ "/" ++ toString clockRate)
        ∈ buildPerInputSdp "video" codecName clockRate channels pt port fmtp ∧
      ("a=rtcp:" ++ toString (port + 1) ++ " IN IP4 127.0.0.1")
        ∈ buildPerInputSdp "video" codecName clockRate channels pt port fmtp ∧
      "a=recvonly" ∈ buildPerInputSdp "video" codecName clockRate channels pt port fmtp ∧
      ("a=rtcp:" ++ toString (port + 1) ++ " IN IP4 127.0.0.1")
        ∈ buildPerInputSdp "audio" codecName clockRate channels pt port fmtp ∧
      ("a=rtpmap:" ++ toString pt ++ " " ++ codecName ++ "/" ++ toString clockRate ++ "/"
          ++ toString (jsOrNat channels 2))
        ∈ buildPerInputSdp "audio" codecName clockRate channels pt port fmtp ∧
      jsOrNat none 2 = 2 ∧
      (fmtp ≠ "" → ("a=fmtp:" ++ toString pt ++ " " ++ fmtp)
        ∈ buildPerInputSdp "video" codecName clockRate channels pt port fmtp) ∧
      (fmtp = "" →
        (buildPerInputSdp "video" codecName clockRate channels pt port fmtp).countP isFmtpLine
          = 0) ∧
      (sdpFor "video" pt codecName clockRate port channels fmtp).countP isMediaLine = 1 ∧
      (sdpFor "audio" pt codecName clockRate port channels fmtp).countP isMediaLine = 1 ∧
      (sdpFor "video" pt codecName clockRate port channels fmtp).countP isRtcpLine = 0 ∧
      (sdpFor "audio" pt codecName clockRate port channels fmtp).countP isRtcpLine = 0 := by
  intro codecName clockRate channels pt port fmtp
  by_cases hf : fmtp = ""
  · subst hf
    refine ⟨rfl, rfl, ?_, ?_, ?_, ?_, ?_, ?_, rfl, ?_, fun _ => rfl, rfl, rfl, rfl, rfl⟩
    · simp [buildPerInputSdp_video, sdpPreamble]
    · simp [buildPerInputSdp_video, sdpPreamble]
    · simp [buildPerInputSdp_video, sdpPreamble]
    · simp [buildPerInputSdp_video, sdpPreamble]
    · simp [buildPerInputSdp_audio, sdpPreamble]
    · simp [buildPerInputSdp_audio, sdpPreamble]
    · intro hne; exact absurd rfl hne
  · rw [buildPerInputSdp_video, buildPerInputSdp_audio, sdpFor_video, sdpFor_audio,
      if_neg hf]
    refine ⟨?_, ?_, ?_, ?_, ?_, ?_, ?_, ?_, rfl, fun _ => ?_, fun h => absurd h hf,
      ?_, ?_, ?_, ?_⟩
    · simp [sdpPreamble, List.countP_append, List.countP_cons, isMediaLine_mvideo,
        isMediaLine_rtpmap, isMediaLine_rtcp, isMediaLine_fmtp]
      rfl
    · simp [sdpPreamble, List.countP_append, List.countP_cons, isMediaLine_maudio,
        isMediaLine_rtpmap, isMediaLine_rtcp, isMediaLine_fmtp]
      rfl
    · simp [sdpPreamble]
    · simp [sdpPreamble]
    · simp [sdpPreamble]
    · simp [sdpPreamble]
    · simp [sdpPreamble]
    · simp [sdpPreamble]
    · simp [sdpPreamble]
    · simp [sdpPreamble, List.countP_append, List.countP_cons, isMediaLine_mvideo,
        isMediaLine_rtpmap, isMediaLine_fmtp]
      rfl
    · simp [sdpPreamble, List.countP_append, List.countP_cons, isMediaLine_maudio,
        isMediaLine_rtpmap, isMediaLine_fmtp]
      rfl
    · simp +decide [sdpPreamble, List.countP_append, List.countP_cons]
      exact ⟨⟨rfl, rfl⟩, rfl⟩
    · simp +decide [sdpPreamble, List.countP_append, List.countP_cons]
      exact ⟨⟨rfl, rfl⟩, rfl⟩

/-- C6 witness: at a concrete codec (VP8, payload 96, port 5000) the
`a=fmtp:` line is present exactly when the format-parameter string is
non-empty. -/
theorem per_input_sdp_shape_witness :
    ("a=fmtp:" ++ toString 96 ++ " " ++ "profile-id=2")
      ∈ buildPerInputSdp "video" "VP8" 90000 none 96 5000 "profile-id=2" ∧
    (buildPerInputSdp "video" "VP8" 90000 none 96 5000 "").countP isFmtpLine = 0 := by
  constructor
  · exact (per_input_sdp_shape "VP8" 90000 none 96 5000
      "profile-id=2").2.2.2.2.2.2.2.2.2.1 (by decide)
  · exact (per_input_sdp_shape "VP8" 90000 none 96 5000 "").2.2.2.2.2.2.2.2.2.2.1 rfl

/-- C6 counterexample: the claim requires every per-input SDP to carry the
`a=rtcp:<port+1> IN IP4 127.0.0.1` line, but the per-participant
`_sdpFor` omits it: for VP8/payload 96/port 5000 the line is absent. -/
theorem per_participant_sdp_no_rtcp_cex :
    ("a=rtcp:" ++ toString (5000 + 1) ++ " IN IP4 127.0.0.1")
      ∉ sdpFor "video" 96 "VP8" 90000 5000 none "" := by
  decide

/-- Embedding of the per-producer half of the per-participant `start`
(per-participant-recorder.js lines 93-135): for each producer that passed
`canConsume`, `_codecInfo(producer.kind, consumer.rtpParameters)` is
computed (line 99) and dereferenced with NO null check when `_sdpFor` is
called (`ci.payloadType`, line 104); a `null` result therefore raises a
TypeError that rejects the whole `start` call, processing no further
producer.  `consumeRtp p` is the consumer RTP parameter assignment the
router returns for producer `p`; `ports p` the allocated port. -/
def perParticipantStartSdps (consumeRtp : Producer → RtpParameters) (ports : Producer → Nat) :
    List Producer → Except String (List (List String))
  | [] => Except.ok []
  | p :: rest =>
    match codecFromRtpParameters p.kind (consumeRtp p) with
    | none => Except.error "TypeError: cannot read properties of null"
    | some ci =>
      match perParticipantStartSdps consumeRtp ports rest with
      | Except.error e => Except.error e
      | Except.ok tl =>
        Except.ok (sdpFor p.kind ci.payloadType ci.codecName ci.clockRate (ports p)
          ci.channels ci.fmtp :: tl)

/-- Embedding of the corresponding mixed-manager loop
(mixed-recording-manager.js lines 194-250): a producer whose consumer RTP
parameters contain no matching codec is SKIPPED — its transport is closed
(lines 199-204) and the loop continues.  Returns the kept per-input SDP
line lists and the ids of the producers whose transports were closed. -/
def mixedStartInputs (consumeRtp : Producer → RtpParameters) (ports : Producer → Nat) :
    List Producer → List (List String) × List Nat
  | [] => ([], [])
  | p :: rest =>
    match codecFromRtpParameters p.kind (consumeRtp p) with
    | none =>
      let r := mixedStartInputs consumeRtp ports rest
      (r.1, p.id :: r.2)
    | some ci =>
      let r := mixedStartInputs consumeRtp ports rest
      (buildPerInputSdp p.kind ci.codecName ci.clockRate ci.channels ci.payloadType
         (ports p) ci.fmtp :: r.1, r.2)

lemma perParticipantStartSdps_error_iff (consumeRtp : Producer → RtpParameters)
    (ports : Producer → Nat) :
    ∀ prods : List Producer,
      (∃ e, perParticipantStartSdps consumeRtp ports prods = Except.error e) ↔
        ∃ p ∈ prods, codecFromRtpParameters p.kind (consumeRtp p) = none := by
  intro prods
  induction prods with
  | nil => simp [perParticipantStartSdps]
  | cons p rest ih =>
    cases hc : codecFromRtpParameters p.kind (consumeRtp p) with
    | none =>
      simp only [perParticipantStartSdps, hc]
      constructor
      · intro _; exact ⟨p, by simp, hc⟩
      · intro _; exact ⟨"TypeError: cannot read properties of null", rfl⟩
    | some ci =>
      simp only [perParticipantStartSdps, hc]
      cases hr : perParticipantStartSdps consumeRtp ports rest with
      | error e =>
        constructor
        · intro _
          obtain ⟨q, hq, hqc⟩ := ih.mp ⟨e, hr⟩
          exact ⟨q, by simp [hq], hqc⟩
        · intro _; exact ⟨e, rfl⟩
      | ok tl =>
        constructor
        · intro ⟨e, he⟩; exact absurd he (by simp)
        · intro ⟨q, hq, hqc⟩
          rcases List.mem_cons.mp hq with rfl | hmem
          · rw [hc] at hqc; exact absurd hqc (by simp)
          · obtain ⟨e, he⟩ := ih.mpr ⟨q, hmem, hqc⟩
            rw [he] at hr; exact absurd hr (by simp)

lemma mixedStartInputs_closed (consumeRtp : Producer → RtpParameters)
    (ports : Producer → Nat) :
    ∀ prods : List Producer,
      (mixedStartInputs consumeRtp ports prods).2 =
        (prods.filter
          (fun p => (codecFromRtpParameters p.kind (consumeRtp p)).isNone)).map Producer.id := by
  intro prods
  induction prods with
  | nil => rfl
  | cons p rest ih =>
    cases hc : codecFromRtpParameters p.kind (consumeRtp p) with
    | none => simp [mixedStartInputs, hc, List.filter_cons, ih]
    | some ci => simp [mixedStartInputs, hc, List.filter_cons, ih]

lemma mixedStartInputs_kept_length (consumeRtp : Producer → RtpParameters)
    (ports : Producer → Nat) :
    ∀ prods : List Producer,
      (mixedStartInputs consumeRtp ports prods).1.length =
        (prods.filter
          (fun p => (codecFromRtpParameters p.kind (consumeRtp p)).isSome)).length := by
  intro prods
  induction prods with
  | nil => rfl
  | cons p rest ih =>
    cases hc : codecFromRtpParameters p.kind (consumeRtp p) with
    | none => simp [mixedStartInputs, hc, List.filter_cons, ih]
    | some ci => simp [mixedStartInputs, hc, List.filter_cons, ih]

/-- C10: the per-participant `start` throws (rejecting the whole
multi-producer start) exactly when some producer's consumer RTP
parameters contain no codec matching that producer's kind, because
`_codecInfo`'s null result is dereferenced unchecked; the mixed recorder
instead skips exactly those producers, closing their transports, and
keeps one input per producer with a matching codec. -/
theorem per_participant_null_codec_aborts_mixed_skips :
    ∀ (consumeRtp : Producer → RtpParameters) (ports : Producer → Nat)
      (prods : List Producer),
      ((∃ e, perParticipantStartSdps consumeRtp ports prods = Except.error e) ↔
        ∃ p ∈ prods, codecFromRtpParameters p.kind (consumeRtp p) = none) ∧
      ((mixedStartInputs consumeRtp ports prods).2 =
        (prods.filter
          (fun p => (codecFromRtpParameters p.kind (consumeRtp p)).isNone)).map Producer.id) ∧
      ((mixedStartInputs consumeRtp ports prods).1.length =
        (prods.filter
          (fun p => (codecFromRtpParameters p.kind (consumeRtp p)).isSome)).length) :=
  fun consumeRtp ports prods =>
    ⟨perParticipantStartSdps_error_iff consumeRtp ports prods,
     mixedStartInputs_closed consumeRtp ports prods,
     mixedStartInputs_kept_length consumeRtp ports prods⟩

/-- C10 witness: one video producer whose consumer RTP parameters hold no
codecs at all makes the per-participant start throw. -/
theorem per_participant_null_codec_aborts_mixed_skips_witness :
    ∃ e, perParticipantStartSdps (fun _ => ⟨[]⟩) (fun _ => 5000)
      [⟨1, "video", ⟨[]⟩⟩] = Except.error e :=
  (per_participant_null_codec_aborts_mixed_skips (fun _ => ⟨[]⟩) (fun _ => 5000)
      [⟨1, "video", ⟨[]⟩⟩]).1.mpr ⟨⟨1, "video", ⟨[]⟩⟩, by simp, rfl⟩

lemma buildPerInputSdp_nonvideo (kind codecName : String) (clockRate : Nat)
    (channels : Option Nat) (pt port : Nat) (fmtp : String) (hk : kind ≠ "video") :
    buildPerInputSdp kind codecName clockRate channels pt port fmtp =
      sdpPreamble ++
        ["m=audio " ++ toString port ++ " RTP/AVP " ++ toString pt,
         "a=rtpmap:" ++ toString pt ++ " " ++ codecName ++ "/" ++ toString clockRate
           ++ "/" ++ toString (jsOrNat channels 2),
         "a=rtcp:" ++ toString (port + 1) ++ " IN IP4 127.0.0.1",
         "a=recvonly"] ++
        (if fmtp = "" then [] else ["a=fmtp:" ++ toString pt ++ " " ++ fmtp]) := by
  unfold buildPerInputSdp
  rw [if_neg hk]
  exact (List.append_assoc _ _ _).symm

/-- C1 (amended): in the mixed recorder the `a=rtpmap` payload type,
codec name and clock rate of each written per-input SDP come from the
codec extracted from the CONSUMER's negotiated RTP parameters
(`consumer.rtpParameters`); in the legacy `startRecording` of
recording-manager.js the synthesized SDP instead takes them from the
first matching PRODUCER's RTP parameters (`producer.rtpParameters`,
lines 74-83) — the consumer-assigned parameters play no role in that
pipeline, whose embedding does not even consult them. -/
theorem sdp_codec_fields_source :
    (∀ (consumeRtp : Producer → RtpParameters) (ports : Producer → Nat) (p : Producer)
       (ci : CodecInfo),
       codecFromRtpParameters p.kind (consumeRtp p) = some ci →
         ∃ lines, (mixedStartInputs consumeRtp ports [p]).1 = [lines] ∧
           (p.kind = "video" →
             ("a=rtpmap:" ++ toString ci.payloadType ++ " " ++ ci.codecName ++ "/" ++
               toString ci.clockRate) ∈ lines) ∧
           (p.kind ≠ "video" →
             ("a=rtpmap:" ++ toString ci.payloadType ++ " " ++ ci.codecName ++ "/" ++
               toString ci.clockRate ++ "/" ++ toString (jsOrNat ci.channels 2)) ∈ lines)) ∧
    (∀ (producers : List Producer) (basePort : Nat) (rtpv : RtpParameters)
       (c : RtpCodec) (rest : List RtpCodec),
       firstKindRtp "video" producers = some rtpv → rtpv.codecs = c :: rest →
         ∃ lines, startRecordingSdp producers basePort = some lines ∧
           ("a=rtpmap:" ++ toString c.payloadType ++ " " ++
             replaceFirst c.mimeType ("video" ++ "/") "" ++ "/" ++ toString c.clockRate)
             ∈ lines) := by
  constructor
  · intro consumeRtp ports p ci hc
    refine ⟨buildPerInputSdp p.kind ci.codecName ci.clockRate ci.channels ci.payloadType
      (ports p) ci.fmtp, ?_, ?_, ?_⟩
    · simp [mixedStartInputs, hc]
    · intro hk
      rw [hk, buildPerInputSdp_video]
      simp [sdpPreamble]
    · intro hk
      rw [buildPerInputSdp_nonvideo _ _ _ _ _ _ _ hk]
      simp [sdpPreamble]
  · intro producers basePort rtpv c rest hfirst hcodecs
    refine ⟨createSdpText (some rtpv) (firstKindRtp "audio" producers) basePort
      (match firstKindRtp "audio" producers with | none => none | some _ => some (basePort + 2)),
      ?_, ?_⟩
    · unfold startRecordingSdp
      rw [hfirst]
    · cases rtpv with
      | mk codecs =>
        obtain rfl : codecs = c :: rest := hcodecs
        simp [createSdpText, getCodecInfoFromRtpParameters]

/-- C1 witness: a VP8 video producer whose consumer-side negotiation
renumbered the payload type to 101 yields a mixed per-input SDP whose
rtpmap carries 101, while the legacy start yields an SDP whose rtpmap
carries the producer's payload type 96. -/
theorem sdp_codec_fields_source_witness :
    (∃ lines,
      (mixedStartInputs (fun _ => ⟨[⟨"video/VP8", 101, 90000, none, none⟩]⟩) (fun _ => 5000)
          [⟨1, "video", ⟨[⟨"video/VP8", 96, 90000, none, none⟩]⟩⟩]).1 = [lines] ∧
      (("video" : String) = "video" → "a=rtpmap:101 VP8/90000" ∈ lines) ∧
      (("video" : String) ≠ "video" → ("a=rtpmap:101 VP8/90000/2" : String) ∈ lines)) ∧
    (∃ lines,
      startRecordingSdp [⟨1, "video", ⟨[⟨"video/VP8", 96, 90000, none, none⟩]⟩⟩] 10000
          = some lines ∧
      ("a=rtpmap:96 VP8/90000" : String) ∈ lines) :=
  ⟨(sdp_codec_fields_source).1 (fun _ => ⟨[⟨"video/VP8", 101, 90000, none, none⟩]⟩)
      (fun _ => 5000) ⟨1, "video", ⟨[⟨"video/VP8", 96, 90000, none, none⟩]⟩⟩
      ⟨101, "VP8", 90000, none, ""⟩ rfl,
   (sdp_codec_fields_source).2 [⟨1, "video", ⟨[⟨"video/VP8", 96, 90000, none, none⟩]⟩⟩]
      10000 ⟨[⟨"video/VP8", 96, 90000, none, none⟩]⟩ ⟨"video/VP8", 96, 90000, none, none⟩ []
      rfl rfl⟩

/-- C1 counterexample: for a successful legacy start with a producer
payload type of 96 while the consumer-assigned payload type is 101, the
synthesized SDP's rtpmap line carries 96, not the consumer's 101 — the
claimed equality between the SDP payload type and the consumer-assigned
payload type fails. -/
theorem legacy_sdp_uses_producer_payload_type_cex :
    startRecordingSdp [⟨1, "video", ⟨[⟨"video/VP8", 96, 90000, none, none⟩]⟩⟩] 10000 =
      some ["v=0", "o=- 0 0 IN IP4 127.0.0.1", "s=FFmpeg", "c=IN IP4 127.0.0.1", "t=0 0",
            "m=video 10000 RTP/AVP 96", "a=rtpmap:96 VP8/90000", "a=recvonly"] ∧
    (codecFromRtpParameters "video"
        ((fun _ : Producer => (⟨[⟨"video/VP8", 101, 90000, none, none⟩]⟩ : RtpParameters))
          ⟨1, "video", ⟨[⟨"video/VP8", 96, 90000, none, none⟩]⟩⟩)).map CodecInfo.payloadType
      = some 101 ∧
    ("a=rtpmap:96 VP8/90000" : String) ∈
      ["v=0", "o=- 0 0 IN IP4 127.0.0.1", "s=FFmpeg", "c=IN IP4 127.0.0.1", "t=0 0",
       "m=video 10000 RTP/AVP 96", "a=rtpmap:96 VP8/90000", "a=recvonly"] ∧
    (∀ l ∈ ["v=0", "o=- 0 0 IN IP4 127.0.0.1", "s=FFmpeg", "c=IN IP4 127.0.0.1", "t=0 0",
            "m=video 10000 RTP/AVP 96", "a=rtpmap:96 VP8/90000", "a=recvonly"],
       l ≠ "a=rtpmap:101 VP8/90000") := by
  refine ⟨?_, ?_, ?_, ?_⟩ <;> decide

/-- Events that spawn a muxer or resume a consumer. -/
def isSpawnOrResume : Ev → Bool
  | .spawnMuxer _ => true
  | .resumeConsumer _ => true
  | _ => false

lemma resumesAfterSpawn_true : ∀ l, resumesAfterSpawn true l = true := by
  intro l
  induction l with
  | nil => rfl
  | cons x xs ih => cases x <;> simp [resumesAfterSpawn, ih]

lemma resumesAfterSpawn_append_of_none (b : Bool) (l₁ l₂ : List Ev)
    (h : l₁.all (fun e => !isSpawnOrResume e) = true) :
    resumesAfterSpawn b (l₁ ++ l₂) = resumesAfterSpawn b l₂ := by
  induction l₁ with
  | nil => rfl
  | cons x xs ih =>
    simp only [List.all_cons, Bool.and_eq_true] at h
    cases x <;> simp_all [resumesAfterSpawn, isSpawnOrResume]

lemma mixedStartTrace_binder_all (inputs : List (Nat × String)) :
    (inputs.flatMap (fun i =>
      [Ev.createTransport i.1, Ev.createConsumer i.1 true,
       Ev.connectTransport i.1, Ev.writeSdp i.1])).all (fun e => !isSpawnOrResume e) = true := by
  rw [List.all_eq_true]
  intro e he
  rw [List.mem_flatMap] at he
  obtain ⟨i, _, he⟩ := he
  simp only [List.mem_cons, List.not_mem_nil, or_false] at he
  rcases he with rfl | rfl | rfl | rfl <;> rfl

lemma mixedStartTrace_resumes (inputs : List (Nat × String)) :
    resumesAfterSpawn false (mixedStartTrace inputs) = true := by
  unfold mixedStartTrace
  rw [List.append_assoc,
    resumesAfterSpawn_append_of_none false _ _ (mixedStartTrace_binder_all inputs)]
  simp [resumesAfterSpawn, resumesAfterSpawn_true]

lemma mixedStartTrace_paused (inputs : List (Nat × String)) :
    pausedAtCreation (mixedStartTrace inputs) = true := by
  rw [pausedAtCreation, List.all_eq_true]
  intro e he
  unfold mixedStartTrace at he
  rw [List.mem_append, List.mem_append] at he
  rcases he with (he | he) | he
  · rw [List.mem_flatMap] at he
    obtain ⟨i, _, he⟩ := he
    simp only [List.mem_cons, List.not_mem_nil, or_false] at he
    rcases he with rfl | rfl | rfl | rfl <;> rfl
  · simp only [List.mem_singleton] at he
    subst he; rfl
  · rw [List.mem_flatMap] at he
    obtain ⟨i, _, he⟩ := he
    rw [List.mem_cons] at he
    rcases he with rfl | he
    · rfl
    · by_cases hk : i.2 = "video"
      · rw [if_pos hk] at he
        simp only [List.mem_singleton] at he
        subst he; rfl
      · rw [if_neg hk] at he
        exact absurd he (List.not_mem_nil e)

lemma perStartTrace_paused (items : List (Nat × String)) :
    pausedAtCreation (perStartTrace items) = true := by
  rw [pausedAtCreation, List.all_eq_true]
  intro e he
  unfold perStartTrace at he
  rw [List.mem_flatMap] at he
  obtain ⟨i, _, he⟩ := he
  rw [List.mem_append] at he
  rcases he with he | he
  · simp only [List.mem_cons, List.not_mem_nil, or_false] at he
    rcases he with rfl | rfl | rfl | rfl | rfl | rfl <;> rfl
  · by_cases hk : i.2 = "video"
    · rw [if_pos hk] at he
      simp only [List.mem_singleton] at he
      subst he; rfl
    · rw [if_neg hk] at he
      exact absurd he (List.not_mem_nil e)

lemma perStartTrace_own_spawn : ∀ (items : List (Nat × String)) (spawned : List Nat),
    resumesAfterOwnSpawn spawned (perStartTrace items) = true := by
  intro items
  induction items with
  | nil => intro spawned; rfl
  | cons i rest ih =>
    intro spawned
    rw [perStartTrace, List.flatMap_cons]
    by_cases hk : i.2 = "video"
    · rw [if_pos hk]
      simp only [List.cons_append, List.nil_append, List.append_assoc]
      simp [resumesAfterOwnSpawn, List.contains_cons]
      exact ih _
    · rw [if_neg hk]
      simp only [List.cons_append, List.nil_append, List.append_assoc]
      simp [resumesAfterOwnSpawn, List.contains_cons]
      exact ih _

lemma legacyConnectTrace_resumes (prods : List Nat) :
    resumesAfterSpawn false (legacyConnectTrace prods) = true := by
  rw [legacyConnectTrace]
  simp only [List.cons_append, List.nil_append]
  simp [resumesAfterSpawn, resumesAfterSpawn_true]

lemma legacyConnectTrace_unpaused (prods : List Nat) (h : prods ≠ []) :
    pausedAtCreation (legacyConnectTrace prods) = false := by
  cases prods with
  | nil => exact absurd rfl h
  | cons q qs =>
    rw [legacyConnectTrace, List.flatMap_cons]
    simp [pausedAtCreation]

/-- C3 (amended): in the mixed and per-participant recorders every
recording consumer is created in the paused state and resumed only after
its muxer subprocess was spawned with its argument vector; in the legacy
`connectProducersToRecording` variant of recording-manager.js the
consumers are instead created with `paused: false` (line 517) — they are
not created paused, although their creation still happens after the
muxer process was created. -/
theorem consumers_paused_resumed_after_spawn :
    (∀ inputs : List (Nat × String),
      pausedAtCreation (mixedStartTrace inputs) = true ∧
      resumesAfterSpawn false (mixedStartTrace inputs) = true) ∧
    (∀ items : List (Nat × String),
      pausedAtCreation (perStartTrace items) = true ∧
      resumesAfterOwnSpawn [] (perStartTrace items) = true) ∧
    (∀ prods : List Nat,
      resumesAfterSpawn false (legacyConnectTrace prods) = true ∧
      (prods ≠ [] → pausedAtCreation (legacyConnectTrace prods) = false)) :=
  ⟨fun inputs => ⟨mixedStartTrace_paused inputs, mixedStartTrace_resumes inputs⟩,
   fun items => ⟨perStartTrace_paused items, perStartTrace_own_spawn items []⟩,
   fun prods => ⟨legacyConnectTrace_resumes prods, legacyConnectTrace_unpaused prods⟩⟩

/-- C3 witness: with one producer the legacy connect trace indeed has a
consumer that is not created paused. -/
theorem consumers_paused_resumed_after_spawn_witness :
    pausedAtCreation (legacyConnectTrace [7]) = false :=
  (consumers_paused_resumed_after_spawn.2.2 [7]).2 (by decide)

/-- C3 counterexample: the claim "every recording consumer is created in
the paused state" fails on the legacy `connectProducersToRecording`
variant: its trace for one producer contains a consumer creation with
`paused = false`. -/
theorem legacy_consumer_created_unpaused_cex :
    Ev.createConsumer 7 false ∈ legacyConnectTrace [7] ∧
    pausedAtCreation (legacyConnectTrace [7]) = false := by
  decide

lemma mixedStopPhase_no_close (elapsed : Nat) (e1 : Bool) :
    ∀ e ∈ mixedStopPhase elapsed e1, isCloseEv e = false := by
  intro e he
  unfold mixedStopPhase at he
  rw [List.mem_append, List.mem_append] at he
  rcases he with (he | he) | he
  · split at he
    · simp only [List.mem_singleton] at he; subst he; rfl
    · exact absurd he (List.not_mem_nil e)
  · simp only [List.mem_singleton] at he; subst he; rfl
  · split at he
    · exact absurd he (List.not_mem_nil e)
    · simp only [List.mem_cons, List.not_mem_nil, or_false] at he
      rcases he with rfl | rfl <;> rfl

lemma mixedStopPhase_signal (elapsed : Nat) :
    Ev.signalQuit ∈ mixedStopPhase elapsed false := by
  unfold mixedStopPhase
  simp

lemma closesAll_no_signal (cids tids : List Nat) :
    Ev.signalQuit ∉ closesAll cids tids := by
  intro hmem
  rw [closesAll, List.mem_append] at hmem
  rcases hmem with hmem | hmem <;>
    · rw [List.mem_map] at hmem
      obtain ⟨i, _, hi⟩ := hmem
      exact Ev.noConfusion hi

lemma perStopTrace_kills : ∀ (ids : List Nat) (killed : List Nat),
    killsPrecedeCloses killed (perStopTrace ids) = true := by
  intro ids
  induction ids with
  | nil => intro killed; rfl
  | cons i rest ih =>
    intro killed
    rw [perStopTrace, List.flatMap_cons, List.append_assoc]
    simp [killsPrecedeCloses, List.contains_cons]
    exact ih _

/-- C2: on every stop, the muxer is dealt with first and the Registry
entry is removed last.  For the mixed recorder: the graceful-quit signal
(sent whenever the muxer has not already exited within the initial
300 ms) precedes every consumer/transport close; consumers and
endpoints are closed before the grace window completes only in the branch
where the muxer is still running; and the Registry deletion comes after
the stop phase and after all closes.  For the per-participant recorder:
each item's muxer receives its kill signal before that item's consumer
and transport are closed, and the Registry deletion is the final event,
after every close. -/
theorem stop_muxer_first_registry_last :
    (∀ (cids tids : List Nat) (elapsed : Nat) (e1 e2 : Bool),
      ∃ front, mixedStopTrace cids tids elapsed e1 e2 =
          front ++ [Ev.deleteEntry, Ev.probeDuration] ∧
        (∀ i ∈ cids, Ev.closeConsumer i ∈ front) ∧
        (∀ i ∈ tids, Ev.closeTransport i ∈ front) ∧
        (e1 = false → Ev.signalQuit ∈ front)) ∧
    (∀ (cids tids : List Nat) (elapsed : Nat) (e1 e2 : Bool),
      ∃ post, mixedStopTrace cids tids elapsed e1 e2 = mixedStopPhase elapsed e1 ++ post ∧
        (∀ e ∈ mixedStopPhase elapsed e1, isCloseEv e = false) ∧
        (e1 = false → Ev.signalQuit ∈ mixedStopPhase elapsed e1) ∧
        Ev.signalQuit ∉ post) ∧
    (∀ (cids tids : List Nat) (elapsed : Nat) (e1 e2 : Bool), (e1 || e2) = true →
      mixedStopTrace cids tids elapsed e1 e2 =
        mixedStopPhase elapsed e1 ++ [Ev.clearTimers] ++ closesAll cids tids ++
          [Ev.deleteEntry, Ev.probeDuration]) ∧
    (∀ ids : List Nat,
      killsPrecedeCloses [] (perStopTrace ids) = true ∧
      ∃ pre, perStopTrace ids = pre ++ [Ev.writeMetadata, Ev.deleteEntry] ∧
        ∀ i ∈ ids, Ev.killMuxer i ∈ pre ∧ Ev.closeConsumer i ∈ pre ∧
          Ev.closeTransport i ∈ pre) := by
  refine ⟨?_, ?_, ?_, ?_⟩
  · intro cids tids elapsed e1 e2
    refine ⟨mixedStopPhase elapsed e1 ++
      (if e1 || e2 then [] else closesAll cids tids ++ [Ev.waitClose 5000]) ++
      [Ev.clearTimers] ++ closesAll cids tids, rfl, ?_, ?_, ?_⟩
    · intro i hi
      simp only [List.mem_append]
      right
      rw [closesAll, List.mem_append]
      exact Or.inl (List.mem_map_of_mem Ev.closeConsumer hi)
    · intro i hi
      simp only [List.mem_append]
      right
      rw [closesAll, List.mem_append]
      exact Or.inr (List.mem_map_of_mem Ev.closeTransport hi)
    · intro h1
      subst h1
      simp only [List.mem_append]
      exact Or.inl (Or.inl (Or.inl (mixedStopPhase_signal elapsed)))
  · intro cids tids elapsed e1 e2
    refine ⟨(if e1 || e2 then [] else closesAll cids tids ++ [Ev.waitClose 5000]) ++
      [Ev.clearTimers] ++ closesAll cids tids ++ [Ev.deleteEntry, Ev.probeDuration],
      by simp [mixedStopTrace, List.append_assoc],
      mixedStopPhase_no_close elapsed e1,
      fun h1 => h1 ▸ mixedStopPhase_signal elapsed, ?_⟩
    intro hmem
    simp only [List.mem_append] at hmem
    rcases hmem with ((hmem | hmem) | hmem) | hmem
    · split at hmem
      · exact absurd hmem (List.not_mem_nil _)
      · rw [List.mem_append] at hmem
        rcases hmem with hmem | hmem
        · exact closesAll_no_signal cids tids hmem
        · simp at hmem
    · simp at hmem
    · exact closesAll_no_signal cids tids hmem
    · simp at hmem
  · intro cids tids elapsed e1 e2 h12
    rw [mixedStopTrace, h12]
    simp
  · intro ids
    refine ⟨perStopTrace_kills ids [], ?_⟩
    refine ⟨ids.flatMap (fun i =>
      [Ev.killMuxer i, Ev.closeConsumer i, Ev.closeTransport i]), rfl, ?_⟩
    intro i hi
    refine ⟨?_, ?_, ?_⟩ <;>
      · rw [List.mem_flatMap]
        exact ⟨i, hi, by simp⟩

/-- C2 witness: concrete instances — with the muxer already exited
(`e1 = true`) the early-close block is absent, and with the muxer still
running (`e1 = e2 = false`) the quit signal is on the trace before the
deletion tail that follows all closes. -/
theorem stop_muxer_first_registry_last_witness :
    (mixedStopTrace [1] [2] 5 true true =
      mixedStopPhase 5 true ++ [Ev.clearTimers] ++ closesAll [1] [2] ++
        [Ev.deleteEntry, Ev.probeDuration]) ∧
    (∃ front, mixedStopTrace [1] [2] 5 false false =
        front ++ [Ev.deleteEntry, Ev.probeDuration] ∧
      (∀ i ∈ [1], Ev.closeConsumer i ∈ front) ∧
      (∀ i ∈ [2], Ev.closeTransport i ∈ front) ∧
      (false = false → Ev.signalQuit ∈ front)) :=
  ⟨stop_muxer_first_registry_last.2.2.1 [1] [2] 5 true true rfl,
   stop_muxer_first_registry_last.1 [1] [2] 5 false false⟩
